import Mathlib

/-!
Verification of the Form Schema Engine of `form-generator-fe`.

The repository ships two Field Type Definitions in
`src/components/fields/CheckboxField.tsx`: a single-checkbox variant
(`label/helperText/required` configuration, value encoded as the literal
strings `"true"`/`"false"`) and a checkbox-group variant (additionally an
`options : string[]` configuration attribute, value encoded as a
comma-joined list of selected options).  Both variants declare the type
tag `"CheckboxField"`.

This file embeds those definitions (default configurations, zod
configuration schemas, `validate` functions and `construct`) and, where
the engine around them (Field Type Registry, Designer Document Model,
Submission Validator) is not part of the shipped sources, models it from
the specification.  Theorems below settle the claims of the spec against
these definitions.
-/

/-- JavaScript whitespace as recognised by `String.prototype.trim`:
the WhiteSpace and LineTerminator productions of ECMA-262 (ASCII blanks,
NBSP, BOM and the Unicode space separators). -/
def jsWhitespace (c : Char) : Bool :=
  c == ' ' || c == '\t' || c == '\n' || c == '\r' ||
  c.toNat == 0x0B || c.toNat == 0x0C || c.toNat == 0xA0 || c.toNat == 0xFEFF ||
  c.toNat == 0x1680 || (0x2000 ≤ c.toNat && c.toNat ≤ 0x200A) ||
  c.toNat == 0x2028 || c.toNat == 0x2029 || c.toNat == 0x202F ||
  c.toNat == 0x205F || c.toNat == 0x3000

/-- `trim` on the character list: drop leading and trailing whitespace. -/
def jsTrimAux (l : List Char) : List Char :=
  ((l.dropWhile jsWhitespace).reverse.dropWhile jsWhitespace).reverse

/-- JavaScript `String.prototype.trim`. -/
def jsTrim (s : String) : String := ⟨jsTrimAux s.data⟩

/-- Configuration payload of the single-checkbox variant
(`extraAttributes` shape at line 27 of the source). -/
structure CheckboxAttrs where
  label : String
  helperText : String
  required : Bool
  deriving DecidableEq, Repr

/-- Configuration payload of the checkbox-group variant
(`extraAttributes` shape at line 265 of the source). -/
structure CheckboxGroupAttrs where
  label : String
  helperText : String
  required : Bool
  options : List String
  deriving DecidableEq, Repr

/-- A type-specific configuration payload: one variant per configuration
shape occurring in the sources. -/
inductive FieldConfig where
  | single (a : CheckboxAttrs)
  | group (a : CheckboxGroupAttrs)
  deriving DecidableEq, Repr

/-- The `label/helperText/required` part of any configuration payload
(both shapes carry these three attributes; zod object schemas read the
keys they declare and ignore the rest). -/
def FieldConfig.base : FieldConfig → CheckboxAttrs
  | .single a => a
  | .group a => { label := a.label, helperText := a.helperText, required := a.required }

/-- A Field Instance: id, type tag, configuration
(`FormElementInstance` of the sources). -/
structure FormElementInstance where
  id : String
  type : String
  extraAttributes : FieldConfig
  deriving DecidableEq, Repr

namespace Checkbox

/-- Source line 27: the single-checkbox default configuration. -/
def extraAttributes : CheckboxAttrs :=
  { label := "Accept Terms and Conditions"
    helperText := "You must agree to proceed"
    required := true }

/-- Source line 33, `propertiesSchema`:
`z.object({label: z.string().min(2).max(50), helperText: z.string().max(200),
required: z.boolean()})`.  The string/boolean typing is carried by
`CheckboxAttrs`; the length bounds are checked here. -/
def propertiesSchemaCheck (cfg : CheckboxAttrs) : Bool :=
  decide (2 ≤ cfg.label.length) && decide (cfg.label.length ≤ 50) &&
  decide (cfg.helperText.length ≤ 200)

/-- Source line 55, `CheckboxFieldFormElement.validate`: when the instance
is required the submitted value must be the literal string `"true"`. -/
def validate (element : CheckboxAttrs) (currentValue : String) : Bool :=
  if element.required then currentValue == "true" else true

end Checkbox

namespace CheckboxGroup

/-- Source line 265: the checkbox-group default configuration. -/
def extraAttributes : CheckboxGroupAttrs :=
  { label := "Select your interests"
    helperText := "Choose all that apply"
    required := false
    options := ["Option 1", "Option 2", "Option 3"] }

/-- Source line 272, `propertiesSchema`: the single-checkbox bounds plus
`options: z.array(z.string()).min(1)`. -/
def propertiesSchemaCheck (cfg : CheckboxGroupAttrs) : Bool :=
  decide (2 ≤ cfg.label.length) && decide (cfg.label.length ≤ 50) &&
  decide (cfg.helperText.length ≤ 200) && decide (1 ≤ cfg.options.length)

/-- Source line 295, `CheckboxFieldFormElement.validate` of the group
variant: when required, `currentValue.trim().length > 0`; membership of
the value in `options` is not consulted. -/
def validate (element : CheckboxGroupAttrs) (currentValue : String) : Bool :=
  if element.required then decide (0 < (jsTrim currentValue).length) else true

end CheckboxGroup

/-- A Field Type Definition: the behaviour bundle of one field type
(`FormElement` of the sources, without the React render components). -/
structure FormElement where
  type : String
  buttonLabel : String
  defaultAttrs : FieldConfig
  validateConfig : FieldConfig → Bool
  validateValue : FieldConfig → String → Bool

/-- `construct` of a Field Type Definition (source lines 43 and 283):
`(id) => ({id, type, extraAttributes})`. -/
def FormElement.construct (fe : FormElement) (id : String) : FormElementInstance :=
  { id := id, type := fe.type, extraAttributes := fe.defaultAttrs }

namespace Checkbox

/-- The single-checkbox Field Type Definition (source line 41).  Its zod
schema declares only `label/helperText/required`, so a payload carrying an
extra `options` key still validates against the declared keys. -/
def CheckboxFieldFormElement : FormElement :=
  { type := "CheckboxField"
    buttonLabel := "Checkbox Field"
    defaultAttrs := .single extraAttributes
    validateConfig := fun cfg => propertiesSchemaCheck cfg.base
    validateValue := fun cfg v => validate cfg.base v }

end Checkbox

namespace CheckboxGroup

/-- The checkbox-group Field Type Definition (source line 281).  Its zod
schema requires an `options` key, so a payload without one is rejected. -/
def CheckboxFieldFormElement : FormElement :=
  { type := "CheckboxField"
    buttonLabel := "Checkbox Group"
    defaultAttrs := .group extraAttributes
    validateConfig := fun cfg =>
      match cfg with
      | .single _ => false
      | .group a => propertiesSchemaCheck a
    validateValue := fun cfg v =>
      if cfg.base.required then decide (0 < (jsTrim v).length) else true }

end CheckboxGroup

/-- The Field Type Definitions present in the shipped sources. -/
def sourceFieldDefinitions : List FormElement :=
  [Checkbox.CheckboxFieldFormElement, CheckboxGroup.CheckboxFieldFormElement]

/-- The checkbox-group instance of the spec scenario:
`options=["Option 1","Option 2"]`, `required=true`. -/
def c1Attrs : CheckboxGroupAttrs :=
  { label := "Select your interests"
    helperText := "Choose all that apply"
    required := true
    options := ["Option 1", "Option 2"] }

/-- C1: for a checkbox-group instance with `required=true` and
`options=["Option 1","Option 2"]`, `validateValue` returns `false` on the
submitted value `""` and `true` on `"Option 1"`. -/
theorem c1_group_required_empty_false_option_true :
    CheckboxGroup.validate c1Attrs "" = false ∧
    CheckboxGroup.validate c1Attrs "Option 1" = true := by
  constructor <;> rfl

theorem jsTrimAux_eq_nil_iff (l : List Char) :
    jsTrimAux l = [] ↔ ∀ c ∈ l, jsWhitespace c = true := by
  unfold jsTrimAux
  rw [List.reverse_eq_nil_iff, List.dropWhile_eq_nil_iff]
  simp only [List.mem_reverse]
  constructor
  · intro h c hc
    rw [← List.takeWhile_append_dropWhile (p := jsWhitespace) (l := l)] at hc
    rcases List.mem_append.mp hc with hc | hc
    · exact List.mem_takeWhile_imp hc
    · exact h c hc
  · intro h c hc
    exact h c ((List.dropWhile_sublist (p := jsWhitespace)).mem hc)

theorem jsTrimAux_length_pos_iff (l : List Char) :
    0 < (jsTrimAux l).length ↔ l.any (fun c => !jsWhitespace c) = true := by
  rw [List.length_pos, Ne, jsTrimAux_eq_nil_iff]
  simp [List.any_eq_true]

/-- Value validation of a Field Instance dispatches on the instance's own
configuration shape to that variant's `validate` from the sources. -/
def FormElementInstance.validateValue (inst : FormElementInstance) (v : String) : Bool :=
  match inst.extraAttributes with
  | .single a => Checkbox.validate a v
  | .group a => CheckboxGroup.validate a v

/-- A Designer Document: ordered instances plus an optional selection. -/
structure Document where
  instances : List FormElementInstance
  selectedId : Option String
  deriving Repr

/-- Modelled from the spec: the Submission Validator (spec 4.3) is not
under src/.  For every instance, in document order, it reads
`submittedValues[id]` (an absent key is treated as the empty value, not an
error), invokes that instance's value validation from the sources, and
records the boolean verdict; it never short-circuits. -/
def validateSubmission (d : Document) (submittedValues : String → Option String) :
    List (String × Bool) :=
  d.instances.map (fun inst => (inst.id, inst.validateValue ((submittedValues inst.id).getD "")))

/-- Aggregate verdict of a validation report. -/
def allValid (report : List (String × Bool)) : Bool := report.all (fun e => e.2)

/-- One-field document holding a required single-checkbox instance `B`
(the spec scenario `CheckboxField#B(required=true)`). -/
def c2Doc : Document :=
  { instances := [{ id := "B", type := "CheckboxField",
                    extraAttributes := .single { label := "Accept Terms and Conditions",
                                                 helperText := "You must agree to proceed",
                                                 required := true } }]
    selectedId := none }

/-- C2: for a required single-checkbox instance, `validateValue` returns
true exactly on the literal string `"true"`; hence a validation report for
such a field records `valid = true` for value `"true"` and `valid = false`
for value `"false"`. -/
theorem c2_single_required_literal_true
    (a : CheckboxAttrs) (h : a.required = true) :
    (∀ v : String, Checkbox.validate a v = true ↔ v = "true") ∧
    validateSubmission c2Doc (fun _ => some "true") = [("B", true)] ∧
    validateSubmission c2Doc (fun _ => some "false") = [("B", false)] := by
  refine ⟨fun v => ?_, rfl, rfl⟩
  simp [Checkbox.validate, h]

/-- Witness for C2 at the default single-checkbox configuration
(`required = true`): `"false"` is rejected and `"true"` accepted. -/
theorem c2_witness :
    Checkbox.validate Checkbox.extraAttributes "false" = false ∧
    Checkbox.validate Checkbox.extraAttributes "true" = true := by
  have h := c2_single_required_literal_true Checkbox.extraAttributes rfl
  constructor
  · have := (h.1 "false").not
    simp only [Bool.not_eq_true] at this
    exact this.mpr (by decide)
  · exact (h.1 "true").mpr rfl

/-- C6: the configuration validators accept exactly the configurations
within the declared bounds: label length between 2 and 50, helper text
length at most 200 and, for the checkbox-group variant, at least one
option.  (That label and helper text are strings, `required` a boolean and
`options` a list of strings is carried by the types of `CheckboxAttrs` and
`CheckboxGroupAttrs`.) -/
theorem c6_properties_schema_bounds :
    (∀ cfg : CheckboxAttrs, Checkbox.propertiesSchemaCheck cfg = true ↔
      (2 ≤ cfg.label.length ∧ cfg.label.length ≤ 50 ∧ cfg.helperText.length ≤ 200)) ∧
    (∀ cfg : CheckboxGroupAttrs, CheckboxGroup.propertiesSchemaCheck cfg = true ↔
      (2 ≤ cfg.label.length ∧ cfg.label.length ≤ 50 ∧ cfg.helperText.length ≤ 200 ∧
        1 ≤ cfg.options.length)) := by
  constructor <;> intro cfg <;>
    simp [Checkbox.propertiesSchemaCheck, CheckboxGroup.propertiesSchemaCheck, and_assoc]

/-- C10: for a required checkbox-group instance the verdict is exactly
"the submitted string has some non-whitespace character" — whitespace-only
strings are rejected, every other string accepted — and the verdict never
depends on the configured `options` list. -/
theorem c10_group_required_ignores_options
    (a : CheckboxGroupAttrs) (v : String) (h : a.required = true) :
    CheckboxGroup.validate a v = v.data.any (fun c => !jsWhitespace c) ∧
    (∀ opts : List String,
      CheckboxGroup.validate { a with options := opts } v = CheckboxGroup.validate a v) := by
  constructor
  · simp only [CheckboxGroup.validate, h, if_true]
    rw [Bool.eq_iff_iff, decide_eq_true_eq]
    exact jsTrimAux_length_pos_iff v.data
  · intro opts
    simp [CheckboxGroup.validate]

/-- Witness for C10: with `required = true` and
`options = ["Option 1", "Option 2"]`, the submitted string `"  x  "` (not
a member of `options`) is accepted and the whitespace-only string `"   "`
is rejected. -/
theorem c10_witness :
    CheckboxGroup.validate ⟨"Pick", "", true, ["Option 1", "Option 2"]⟩ "  x  " = true ∧
    CheckboxGroup.validate ⟨"Pick", "", true, ["Option 1", "Option 2"]⟩ "   " = false := by
  have h1 := c10_group_required_ignores_options ⟨"Pick", "", true, ["Option 1", "Option 2"]⟩ "  x  " rfl
  have h2 := c10_group_required_ignores_options ⟨"Pick", "", true, ["Option 1", "Option 2"]⟩ "   " rfl
  exact ⟨h1.1.trans (by decide), h2.1.trans (by decide)⟩

/-- C3: every Field Type Definition shipped in the sources constructs
instances whose configuration (the default template) passes that same
definition's own configuration validator. -/
theorem c3_construct_self_consistent
    (fe : FormElement) (hfe : fe ∈ sourceFieldDefinitions) (id : String) :
    fe.validateConfig (fe.construct id).extraAttributes = true := by
  simp only [sourceFieldDefinitions, List.mem_cons, List.not_mem_nil, or_false] at hfe
  rcases hfe with rfl | rfl <;> rfl

/-- Witness for C3: the single-checkbox definition is in the source list
and its freshly constructed instance passes its own validator. -/
theorem c3_witness :
    Checkbox.CheckboxFieldFormElement.validateConfig
      (Checkbox.CheckboxFieldFormElement.construct "A").extraAttributes = true :=
  c3_construct_self_consistent Checkbox.CheckboxFieldFormElement (List.Mem.head _) "A"

/-- C5: evaluation at the two shipped Field Type Definitions: both declare
the type tag `"CheckboxField"` (source lines 25 and 263) although they are
distinct definitions (their default configurations differ), so two Field
Type Definitions of the system do share a tag and a tag-keyed Registry can
register at most one of them. -/
theorem c5_two_definitions_share_tag :
    Checkbox.CheckboxFieldFormElement.type = CheckboxGroup.CheckboxFieldFormElement.type ∧
    Checkbox.CheckboxFieldFormElement.defaultAttrs ≠
      CheckboxGroup.CheckboxFieldFormElement.defaultAttrs :=
  ⟨rfl, by decide⟩

/-! ## Reference-aliasing model of `construct`

The source `construct` (lines 43 and 283) is `(id) => ({id, type,
extraAttributes})`: the new object holds the JavaScript REFERENCE to the
module-level `extraAttributes` constant; no copy is made.  To state
aliasing in a pure setting, configuration objects live in an explicit
store and an instance holds the address of its configuration. -/

/-- A Field Instance in the explicit-store model: the configuration is an
address into the store rather than an inline value. -/
structure HeapInstance where
  id : String
  type : String
  configRef : Nat
  deriving DecidableEq, Repr

/-- The module-level constants: the single-checkbox default template at
address 0, the checkbox-group default template at address 1. -/
def moduleHeap : List FieldConfig :=
  [.single Checkbox.extraAttributes, .group CheckboxGroup.extraAttributes]

/-- Source line 43 in the store model: every call returns an instance
whose `configRef` is the address of the shared module constant. -/
def Checkbox.constructRef (id : String) : HeapInstance :=
  { id := id, type := "CheckboxField", configRef := 0 }

/-- Source line 283 in the store model: likewise for the group variant. -/
def CheckboxGroup.constructRef (id : String) : HeapInstance :=
  { id := id, type := "CheckboxField", configRef := 1 }

/-- Mutating the configuration object at address `r`. -/
def writeConfig (heap : List FieldConfig) (r : Nat) (cfg : FieldConfig) : List FieldConfig :=
  heap.set r cfg

/-- Reading the configuration object at address `r`. -/
def readConfig (heap : List FieldConfig) (r : Nat) : Option FieldConfig := heap[r]?

/-- C5-adjacent counterexample to C4: at the distinct ids `"id1"` and
`"id2"`, the two constructed instances hold the SAME configuration
reference (for either variant), so constructed instances do alias the same
configuration object, contrary to the claim. -/
theorem c4_counterexample_constructed_instances_alias :
    "id1" ≠ "id2" ∧
    (Checkbox.constructRef "id1").configRef = (Checkbox.constructRef "id2").configRef ∧
    (CheckboxGroup.constructRef "id1").configRef = (CheckboxGroup.constructRef "id2").configRef :=
  ⟨by decide, rfl, rfl⟩

/-- C4 amended: `construct` places a reference to the shared module-level
default template in every instance it returns, so any two constructed
instances of a variant alias the same configuration object, and a
configuration mutation through one instance's reference is observed when
reading through the other instance's reference. -/
theorem c4_construct_shares_template (id1 id2 : String) (cfg : FieldConfig) :
    (Checkbox.constructRef id1).configRef = (Checkbox.constructRef id2).configRef ∧
    readConfig (writeConfig moduleHeap (Checkbox.constructRef id1).configRef cfg)
      (Checkbox.constructRef id2).configRef = some cfg ∧
    (CheckboxGroup.constructRef id1).configRef = (CheckboxGroup.constructRef id2).configRef ∧
    readConfig (writeConfig moduleHeap (CheckboxGroup.constructRef id1).configRef cfg)
      (CheckboxGroup.constructRef id2).configRef = some cfg :=
  ⟨rfl, rfl, rfl, rfl⟩

/-- Source lines 167 and 446, `applyChanges`: the committed instance is
the existing element with `extraAttributes` replaced by exactly the
validated values. -/
def applyChanges (element : FormElementInstance) (values : FieldConfig) : FormElementInstance :=
  { element with extraAttributes := values }

/-- Modelled from the spec: `updateConfiguration` (spec 4.2) of the
Designer Document Model is not under src/ (the source's
`PropertiesComponent.applyChanges` commits through the designer hook's
`updateElement` after zod validation).  The new configuration is checked
by the instance's own Field Type Definition, resolved through `resolve`;
on success the one matching instance is replaced via `applyChanges`,
otherwise an error is returned and no new document is produced. -/
def updateConfiguration (resolve : String → Option FormElement) (d : Document)
    (id : String) (cfg : FieldConfig) : Except String Document :=
  match d.instances.find? (fun i => i.id == id) with
  | none => .error "InstanceNotFound"
  | some inst =>
    match resolve inst.type with
    | none => .error "UnknownFieldType"
    | some fe =>
      if fe.validateConfig cfg then
        .ok { d with instances :=
          d.instances.map (fun i => if i.id == id then applyChanges i cfg else i) }
      else .error "InvalidConfiguration"

/-- C7: `updateConfiguration` commits only configurations that pass the
instance's type's configuration validator; a failing configuration yields
the `InvalidConfiguration` error and no document (the caller keeps the old
one unchanged), and a passing one produces a document that differs from
the old one exactly at the updated instance, whose committed configuration
is exactly the validated values. -/
theorem c7_updateConfiguration_atomic
    (resolve : String → Option FormElement) (d : Document) (id : String)
    (cfg : FieldConfig) (inst : FormElementInstance) (fe : FormElement)
    (hfind : d.instances.find? (fun i => i.id == id) = some inst)
    (hres : resolve inst.type = some fe) :
    (fe.validateConfig cfg = false →
      updateConfiguration resolve d id cfg = .error "InvalidConfiguration") ∧
    (fe.validateConfig cfg = true →
      ∃ d', updateConfiguration resolve d id cfg = .ok d' ∧
        d'.selectedId = d.selectedId ∧
        d'.instances.length = d.instances.length ∧
        ∀ k : Nat, ∀ i : FormElementInstance, d.instances[k]? = some i →
          (i.id ≠ id → d'.instances[k]? = some i) ∧
          (i.id = id → d'.instances[k]? = some (applyChanges i cfg))) := by
  constructor
  · intro hv
    simp [updateConfiguration, hfind, hres, hv]
  · intro hv
    refine ⟨{ d with instances :=
        d.instances.map (fun i => if i.id == id then applyChanges i cfg else i) },
      ?_, rfl, by simp, ?_⟩
    · simp [updateConfiguration, hfind, hres, hv]
    · intro k i hk
      refine ⟨fun hne => ?_, fun heq => ?_⟩
      · simp [List.getElem?_map, hk, hne]
      · simp [List.getElem?_map, hk, heq]

/-- The resolver used in the C7 witness: every tag resolves to the
single-checkbox definition. -/
def c7Resolve : String → Option FormElement := fun _ => some Checkbox.CheckboxFieldFormElement

/-- One-field document used in the C7 witness. -/
def c7Doc : Document :=
  { instances := [{ id := "A", type := "CheckboxField",
                    extraAttributes := .single { label := "Label A",
                                                 helperText := "", required := false } }]
    selectedId := none }

/-- Witness for C7: on `c7Doc`, the one-character label `"X"` fails the
validator and yields `InvalidConfiguration`, while the label
`"New label"` passes and is committed at the matching instance. -/
theorem c7_witness :
    updateConfiguration c7Resolve c7Doc "A"
      (.single { label := "X", helperText := "", required := true }) =
      .error "InvalidConfiguration" ∧
    ∃ d', updateConfiguration c7Resolve c7Doc "A"
        (.single { label := "New label", helperText := "", required := true }) =
        Except.ok d' ∧
      d'.selectedId = c7Doc.selectedId ∧
      d'.instances.length = c7Doc.instances.length ∧
      ∀ k : Nat, ∀ i : FormElementInstance, c7Doc.instances[k]? = some i →
        (i.id ≠ "A" → d'.instances[k]? = some i) ∧
        (i.id = "A" → d'.instances[k]? = some (applyChanges i
          (.single { label := "New label", helperText := "", required := true }))) := by
  have h1 := c7_updateConfiguration_atomic c7Resolve c7Doc "A"
    (.single { label := "X", helperText := "", required := true })
    { id := "A", type := "CheckboxField",
      extraAttributes := .single { label := "Label A", helperText := "", required := false } }
    Checkbox.CheckboxFieldFormElement rfl rfl
  have h2 := c7_updateConfiguration_atomic c7Resolve c7Doc "A"
    (.single { label := "New label", helperText := "", required := true })
    { id := "A", type := "CheckboxField",
      extraAttributes := .single { label := "Label A", helperText := "", required := false } }
    Checkbox.CheckboxFieldFormElement rfl rfl
  exact ⟨h1.1 (by decide), h2.2 (by decide)⟩

/-- C8: the Submission Validator is deterministic and free of hidden
state: the report is a pure function of the document and of the submitted
values at the document's own instance ids, so any two value maps agreeing
on every instance id — in particular two identical inputs — produce
identical reports. -/
theorem c8_validate_deterministic
    (d : Document) (values1 values2 : String → Option String)
    (h : ∀ inst ∈ d.instances, values1 inst.id = values2 inst.id) :
    validateSubmission d values1 = validateSubmission d values2 := by
  unfold validateSubmission
  apply List.map_congr_left
  intro inst hinst
  rw [h inst hinst]

/-- One-field document used in the C8 witness. -/
def c8Doc : Document :=
  { instances := [{ id := "B", type := "CheckboxField",
                    extraAttributes := .group { label := "Select your interests",
                                                helperText := "", required := true,
                                                options := ["Option 1", "Option 2"] } }]
    selectedId := none }

/-- Witness for C8: two maps that agree on the only instance id `"B"`
(though they differ elsewhere) produce the same report on `c8Doc`. -/
theorem c8_witness :
    validateSubmission c8Doc (fun _ => some "Option 1") =
      validateSubmission c8Doc (fun s => if s == "B" then some "Option 1" else none) := by
  apply c8_validate_deterministic
  intro inst hinst
  simp only [c8Doc, List.mem_singleton] at hinst
  subst hinst
  rfl

/-- C9: an absent submitted value is not an error: when the value map has
no entry for an instance's id the pipeline evaluates that instance's
value validation at the empty value, and an ordinary boolean verdict for
that instance is recorded in the report. -/
theorem c9_absent_value_validated_as_empty
    (d : Document) (values : String → Option String) (inst : FormElementInstance)
    (hi : inst ∈ d.instances) (habs : values inst.id = none) :
    (inst.id, inst.validateValue "") ∈ validateSubmission d values := by
  unfold validateSubmission
  refine List.mem_map.mpr ⟨inst, hi, ?_⟩
  rw [habs]
  rfl

/-- One-field document used in the C9 witness: a required single-checkbox
instance `B`. -/
def c9Doc : Document :=
  { instances := [{ id := "B", type := "CheckboxField",
                    extraAttributes := .single { label := "Accept Terms and Conditions",
                                                 helperText := "", required := true } }]
    selectedId := none }

/-- Witness for C9: with a value map holding no entries at all, the
verdict of instance `B` at the empty value is recorded in the report. -/
theorem c9_witness :
    ("B", FormElementInstance.validateValue
        { id := "B", type := "CheckboxField",
          extraAttributes := .single { label := "Accept Terms and Conditions",
                                       helperText := "", required := true } } "") ∈
      validateSubmission c9Doc (fun _ => none) :=
  c9_absent_value_validated_as_empty c9Doc (fun _ => none) _ (List.Mem.head _) rfl
